import Mathlib

/-!
Shallow embedding of the authentication / token-lifecycle subsystem of the
bird-breeding-registry API (files `app/core/config.py`, `app/core/security.py`,
`app/core/redis_client.py`, `app/dependencies.py`, `app/routers/auth.py`).

Timestamps are modelled as `Int` epoch seconds (the Python code mixes `int`
claims with `datetime.timestamp()` floats; the sub-second part is irrelevant
to every property stated here, and `int(exp - now)` is exact on integral
inputs).  `timedelta` arguments are modelled as `Int` seconds.  Python
exceptions become explicit `Except` results, and the process-global Redis
connection becomes an explicit `Store` value threaded through each call.
-/

namespace Api

/-! ### Settings (`app/core/config.py`) -/

/-- `Settings.ACCESS_TOKEN_EXPIRES_MINUTES` (config.py line 28). -/
def ACCESS_TOKEN_EXPIRES_MINUTES : Int := 30

/-- `Settings.REFRESH_TOKEN_EXPIRES_MINUTES` (config.py line 29): `24 * 60`. -/
def REFRESH_TOKEN_EXPIRES_MINUTES : Int := 24 * 60

/-- `Settings.REMEMBER_ME_REFRESH_TOKEN_EXPIRES_MINUTES` (config.py line 30): `30 * 24 * 60`. -/
def REMEMBER_ME_REFRESH_TOKEN_EXPIRES_MINUTES : Int := 30 * 24 * 60

/-- The complete list of field names declared by `class Settings(BaseSettings)`
in `app/core/config.py` (pydantic v2: an attribute read of any name outside
this list raises `AttributeError`).  Note `REDIS_CLUSTER_ENABLED` is absent. -/
def settingsFields : List String :=
  ["TITLE", "DESCRIPTION", "VERSION", "ENVIRONMENT", "DEBUG",
   "DB_USER", "DB_PASSWORD", "DB_HOST", "DB_PORT", "DB_NAME",
   "SECRET_KEY", "ALGORITHM", "ACCESS_TOKEN_EXPIRES_MINUTES",
   "REFRESH_TOKEN_EXPIRES_MINUTES", "REMEMBER_ME_REFRESH_TOKEN_EXPIRES_MINUTES",
   "REFRESH_TOKEN_ROTATION", "SECURE_COOKIE", "COOKIE_DOMAIN",
   "ACCESS_COOKIE_MAX_AGE", "REFRESH_COOKIE_MAX_AGE", "COOKIE_SAMESITE",
   "ALLOWED_HOSTS", "EMAIL_HOST", "EMAIL_PORT", "EMAIL_USER", "EMAIL_PASSWORD",
   "REDIS_HOST", "REDIS_PORT", "REDIS_PASSWORD", "REDIS_DB"]

/-- Python exception classes relevant to the embedded code paths. -/
inductive PyExc where
  | attributeError
  | redisClusterException
  | connectionError
deriving DecidableEq

/-- The two kinds of connection handle `RedisClient.get_client` can produce. -/
inductive RedisHandle where
  | cluster
  | standalone
deriving DecidableEq

/-- Reading a boolean attribute off the `settings` object: returns the value
when the field is declared in `Settings`, raises `AttributeError` otherwise. -/
def getattrBool (name : String) (value : Bool) : Except PyExc Bool :=
  if settingsFields.contains name then .ok value else .error .attributeError

/-- `RedisClient.get_client` (redis_client.py lines 18-64), modelled at the
first construction (`cls._instance is None`).  The `try` block first reads
`settings.REDIS_CLUSTER_ENABLED`, then constructs a cluster or standalone
client; the `except` clause catches only `redis.cluster.RedisClusterException`
and falls back to a standalone client.  The two constructor outcomes are
parameters (they depend on the network). -/
def get_client (clusterEnabledValue : Bool)
    (clusterCtor standaloneCtor : Except PyExc RedisHandle) :
    Except PyExc RedisHandle :=
  let tryBody : Except PyExc RedisHandle :=
    match getattrBool "REDIS_CLUSTER_ENABLED" clusterEnabledValue with
    | .error e => .error e
    | .ok flag => if flag then clusterCtor else standaloneCtor
  match tryBody with
  | .ok c => .ok c
  | .error .redisClusterException => standaloneCtor
  | .error e => .error e

/-! ### The Redis store (`app/core/redis_client.py`)

The external store is a key-value map with per-key TTLs; an unreachable store
makes every command raise.  Commands return their Python result paired with
the possibly-updated store state. -/

/-- One key in the store: its name, remaining TTL in seconds, and value. -/
structure StoreEntry where
  key : String
  ttl : Int
  value : String
deriving DecidableEq

/-- The external key-value store: reachability plus current contents. -/
structure Store where
  reachable : Bool
  entries : List StoreEntry
deriving DecidableEq

/-- Redis `SETEX key seconds value`: overwrites any existing entry for `key`. -/
def Store.setex (st : Store) (k : String) (ttl : Int) (v : String) :
    Except PyExc Unit × Store :=
  if st.reachable then
    (.ok (), { st with entries := ⟨k, ttl, v⟩ :: st.entries.filter (fun e => e.key != k) })
  else (.error .connectionError, st)

/-- Redis `EXISTS key`: the number of listed keys that exist (0 or 1 here). -/
def Store.existsCount (st : Store) (k : String) : Except PyExc Nat × Store :=
  if st.reachable then
    (.ok (if st.entries.any (fun e => e.key == k) then 1 else 0), st)
  else (.error .connectionError, st)

/-- Redis `GET key`. -/
def Store.getVal (st : Store) (k : String) : Except PyExc (Option String) × Store :=
  if st.reachable then
    (.ok ((st.entries.find? (fun e => e.key == k)).map StoreEntry.value), st)
  else (.error .connectionError, st)

/-- Redis `DEL key`. -/
def Store.delKey (st : Store) (k : String) : Except PyExc Unit × Store :=
  if st.reachable then
    (.ok (), { st with entries := st.entries.filter (fun e => e.key != k) })
  else (.error .connectionError, st)

/-- `RedisClient.revoke_token` (redis_client.py lines 66-86):
`setex("revoked_token:" + jti, expiration_seconds, "1")` inside
`try/except Exception: return False`. -/
def RedisClient.revoke_token (st : Store) (jti : String) (expiration_seconds : Int) :
    Bool × Store :=
  match Store.setex st ("revoked_token:" ++ jti) expiration_seconds "1" with
  | (.ok _, st1) => (true, st1)
  | (.error _, st1) => (false, st1)

/-- `RedisClient.is_token_revoked` (redis_client.py lines 88-105):
`exists("revoked_token:" + jti) == 1`; on any exception returns `True`
("If Redis is down, err on the side of security"). -/
def RedisClient.is_token_revoked (st : Store) (jti : String) : Bool × Store :=
  match Store.existsCount st ("revoked_token:" ++ jti) with
  | (.ok n, st1) => (n == 1, st1)
  | (.error _, st1) => (true, st1)

/-- `RedisClient.cache_get` (redis_client.py lines 107-123): on exception `None`. -/
def RedisClient.cache_get (st : Store) (k : String) : Option String × Store :=
  match Store.getVal st k with
  | (.ok v, st1) => (v, st1)
  | (.error _, st1) => (none, st1)

/-- `RedisClient.cache_set` (redis_client.py lines 125-144): on exception `False`. -/
def RedisClient.cache_set (st : Store) (k v : String) (expiration_seconds : Int) :
    Bool × Store :=
  match Store.setex st k expiration_seconds v with
  | (.ok _, st1) => (true, st1)
  | (.error _, st1) => (false, st1)

/-- `RedisClient.cache_delete` (redis_client.py lines 146-163): on exception `False`. -/
def RedisClient.cache_delete (st : Store) (k : String) : Bool × Store :=
  match Store.delKey st k with
  | (.ok _, st1) => (true, st1)
  | (.error _, st1) => (false, st1)

/-! ### JWT tokens (`app/core/security.py`)

A token is modelled by its decoded claim set plus a flag recording whether its
signature verifies under the server's `SECRET_KEY` (the cryptography of the
`jose` library is abstracted to that flag; tokens minted by this service are
signed with the server key, so their flag is `true`). -/

/-- The claims this application reads from a JWT payload.  A missing claim is
`none` (Python `payload.get(...)` returning `None`). -/
structure Payload where
  sub : Option String := none
  user_id : Option Int := none
  jti : Option String := none
  type : Option String := none
  exp : Option Int := none
  remember_me : Option Bool := none
deriving DecidableEq

/-- A token string, abstracted to its payload and signature validity. -/
structure Token where
  payload : Payload
  sigValid : Bool
deriving DecidableEq

/-- `jose.jwt.decode(token, SECRET_KEY, ...)`: fails on a bad signature;
with `verify_exp` set it additionally raises `ExpiredSignatureError` when the
`exp` claim is present and `exp < now`. -/
def jwtDecode (verify_exp : Bool) (now : Int) (t : Token) : Option Payload :=
  if t.sigValid then
    if verify_exp then
      match t.payload.exp with
      | some e => if e < now then none else some t.payload
      | none => some t.payload
    else some t.payload
  else none

/-- `create_access_token` (security.py lines 38-51).  `expires_delta` is in
seconds; Python `if expires_delta:` is falsy for both `None` and a zero
timedelta.  `jti` is the freshly generated UUID. -/
def create_access_token (sub : String) (user_id : Int)
    (expires_delta : Option Int) (jti : String) (now : Int) : Token :=
  let expSecs : Int :=
    match expires_delta with
    | some d => if d != 0 then d else 60 * ACCESS_TOKEN_EXPIRES_MINUTES
    | none => 60 * ACCESS_TOKEN_EXPIRES_MINUTES
  { payload := { sub := some sub, user_id := some user_id, jti := some jti,
                 type := some "access", exp := some (now + expSecs) },
    sigValid := true }

/-- `create_refresh_token` (security.py lines 54-72): ttl precedence is
truthy `expires_delta`, then `remember_me` (30-day tier), then the default
tier `REFRESH_TOKEN_EXPIRES_MINUTES`. -/
def create_refresh_token (sub : String) (user_id : Int)
    (expires_delta : Option Int) (remember_me : Bool) (jti : String) (now : Int) : Token :=
  let expSecs : Int :=
    match expires_delta with
    | some d =>
      if d != 0 then d
      else if remember_me then 60 * REMEMBER_ME_REFRESH_TOKEN_EXPIRES_MINUTES
      else 60 * REFRESH_TOKEN_EXPIRES_MINUTES
    | none =>
      if remember_me then 60 * REMEMBER_ME_REFRESH_TOKEN_EXPIRES_MINUTES
      else 60 * REFRESH_TOKEN_EXPIRES_MINUTES
  { payload := { sub := some sub, user_id := some user_id, jti := some jti,
                 type := some "refresh", remember_me := some remember_me,
                 exp := some (now + expSecs) },
    sigValid := true }

/-- `decode_token` (security.py lines 75-85): verify signature and expiry;
then `jti = payload.get("jti"); if jti and RedisClient.is_token_revoked(jti):
return None; return payload`.  The revocation store is consulted only when
the `jti` claim is truthy (present and non-empty). -/
def decode_token (st : Store) (now : Int) (t : Token) : Option Payload × Store :=
  match jwtDecode true now t with
  | none => (none, st)
  | some p =>
    match p.jti with
    | some j =>
      if j != "" then
        match RedisClient.is_token_revoked st j with
        | (true, st1) => (none, st1)
        | (false, st1) => (some p, st1)
      else (some p, st)
    | none => (some p, st)

/-- `revoke_token` (security.py lines 88-103): decode with
`options={"verify_exp": False}`; when both `jti` and `exp` are truthy compute
`expiration_seconds = int(exp - now)` and call `RedisClient.revoke_token`
only when it is strictly positive; every other path returns `False`. -/
def revoke_token (st : Store) (now : Int) (t : Token) : Bool × Store :=
  match jwtDecode false now t with
  | none => (false, st)
  | some p =>
    match p.jti, p.exp with
    | some j, some e =>
      if j != "" && e != 0 then
        let expiration_seconds := e - now
        if expiration_seconds > 0 then RedisClient.revoke_token st j expiration_seconds
        else (false, st)
      else (false, st)
    | some _, none => (false, st)
    | none, _ => (false, st)

/-! ### Request authentication (`app/dependencies.py`) -/

/-- `schemas/auth.py` `TokenData`. -/
structure TokenData where
  user_id : Int
  sub : String
deriving DecidableEq

/-- The caller-visible HTTP error classes raised by the auth endpoints. -/
inductive HttpError where
  | unauthorized
  | forbidden
deriving DecidableEq

/-- `get_current_user` (dependencies.py lines 8-47): read the access-token
cookie, decode (signature, expiry, revocation), require `type == "access"`,
require `user_id` and `sub` claims; any failure is a 401. -/
def get_current_user (st : Store) (now : Int) (access_cookie : Option Token) :
    Except HttpError TokenData × Store :=
  match access_cookie with
  | none => (.error .unauthorized, st)
  | some t =>
    match decode_token st now t with
    | (none, st1) => (.error .unauthorized, st1)
    | (some p, st1) =>
      if p.type != some "access" then (.error .unauthorized, st1)
      else
        match p.user_id, p.sub with
        | some uid, some s => (.ok ⟨uid, s⟩, st1)
        | some _, none => (.error .unauthorized, st1)
        | none, _ => (.error .unauthorized, st1)

/-! ### Auth routes (`app/routers/auth.py`) -/

/-- The user record returned by the user store
(`UserCRUD.get_user_by_email` / `get_user_by_username`). -/
structure UserRec where
  id : Int
  email : String
  username : String
  hashed_password : String
  disabled : Bool
deriving DecidableEq

/-- `schemas/auth.py` `LoginRequest`. -/
structure LoginRequest where
  username_or_email : String
  password : String
  remember_me : Bool := false
deriving DecidableEq

/-- The pair of tokens minted by a successful login or refresh. -/
structure TokenPair where
  access_token : Token
  refresh_token : Token
deriving DecidableEq

/-- `login` (auth.py lines 55-102).  The user store and password verifier are
parameters (`byEmail`/`byUsername` stand for the two `UserCRUD` lookups and
`verify` for `security.verify_password` with the bcrypt backend).  `jtiA` and
`jtiR` are the two fresh UUIDs.  Lookup tries email first, then username;
`if not user or not verify_password(...)` raises one 401; `if user.disabled`
raises 403; otherwise both tokens are minted with `sub = email`, `user_id`. -/
def login (byEmail byUsername : String → Option UserRec)
    (verify : String → String → Bool)
    (cred : LoginRequest) (jtiA jtiR : String) (now : Int) :
    Except HttpError TokenPair :=
  let user : Option UserRec :=
    match byEmail cred.username_or_email with
    | some u => some u
    | none => byUsername cred.username_or_email
  match user with
  | none => .error .unauthorized
  | some u =>
    if !(verify cred.password u.hashed_password) then .error .unauthorized
    else if u.disabled then .error .forbidden
    else .ok ⟨create_access_token u.email u.id none jtiA now,
              create_refresh_token u.email u.id none cred.remember_me jtiR now⟩

/-- `refresh_token` route (auth.py lines 105-163): read the refresh-token
cookie; decode; require `type == "refresh"`; require `sub` and `user_id`;
carry `payload.get("remember_me", False)` into the newly minted refresh
token; mint a fresh access/refresh pair. -/
def refresh_token_route (st : Store) (now : Int) (refresh_cookie : Option Token)
    (jtiA jtiR : String) : Except HttpError TokenPair × Store :=
  match refresh_cookie with
  | none => (.error .unauthorized, st)
  | some t =>
    match decode_token st now t with
    | (none, st1) => (.error .unauthorized, st1)
    | (some p, st1) =>
      if p.type != some "refresh" then (.error .unauthorized, st1)
      else
        match p.sub, p.user_id with
        | some email, some uid =>
          let remember_me := p.remember_me.getD false
          (.ok ⟨create_access_token email uid none jtiA now,
                create_refresh_token email uid none remember_me jtiR now⟩, st1)
        | some _, none => (.error .unauthorized, st1)
        | none, _ => (.error .unauthorized, st1)

/-- `logout` route (auth.py lines 166-193).  The route declares
`current_user: TokenData = Depends(get_current_user)`, so the request is
first authenticated against the access-token cookie; only then does the
handler body run, calling `revoke_token` on the same cookie and discarding
its boolean result, and always answering 200. -/
def logout (st : Store) (now : Int) (access_cookie : Option Token) :
    Except HttpError String × Store :=
  match get_current_user st now access_cookie with
  | (.error e, st1) => (.error e, st1)
  | (.ok _, st1) =>
    match access_cookie with
    | some t =>
      let r := revoke_token st1 now t
      (.ok "Successfully logged out", r.2)
    | none => (.ok "Successfully logged out", st1)

/-! ### Password hashing (`app/core/security.py` lines 18-35)

A Python `str` is a sequence of Unicode code points, modelled as `List Char`.
`hash_password` / `verify_password` truncate `password.encode('utf-8')` to 72
bytes and decode back with `errors='ignore'` before handing the string to the
bcrypt backend (`pwd_context.hash` / `pwd_context.verify`), which is kept as
a parameter constrained only by its round-trip contract. -/

/-- `BCRYPT_MAX_PASSWORD_LENGTH` (security.py line 19). -/
def BCRYPT_MAX_PASSWORD_LENGTH : Nat := 72

/-- UTF-8 encoding of one code point (`str.encode('utf-8')`). -/
def utf8EncodeChar (c : Char) : List Nat :=
  let n := c.toNat
  if n < 0x80 then [n]
  else if n < 0x800 then [0xC0 + n / 64, 0x80 + n % 64]
  else if n < 0x10000 then [0xE0 + n / 4096, 0x80 + n / 64 % 64, 0x80 + n % 64]
  else [0xF0 + n / 262144, 0x80 + n / 4096 % 64, 0x80 + n / 64 % 64, 0x80 + n % 64]

/-- UTF-8 encoding of a whole string. -/
def utf8Encode (s : List Char) : List Nat :=
  (s.map utf8EncodeChar).flatten

/-- A UTF-8 continuation byte. -/
def isCont (b : Nat) : Bool := 0x80 ≤ b && b < 0xC0

/-- Valid second byte of a three-byte sequence (excludes overlong forms for
lead `0xE0` and surrogates for lead `0xED`). -/
def validSecondOf3 (b0 b1 : Nat) : Bool :=
  if b0 == 0xE0 then 0xA0 ≤ b1 && b1 ≤ 0xBF
  else if b0 == 0xED then 0x80 ≤ b1 && b1 ≤ 0x9F
  else isCont b1

/-- Valid second byte of a four-byte sequence (excludes overlong forms for
lead `0xF0` and values above U+10FFFF for lead `0xF4`). -/
def validSecondOf4 (b0 b1 : Nat) : Bool :=
  if b0 == 0xF0 then 0x90 ≤ b1 && b1 ≤ 0xBF
  else if b0 == 0xF4 then 0x80 ≤ b1 && b1 ≤ 0x8F
  else isCont b1

/-- `bytes.decode('utf-8', errors='ignore')`: decode well-formed sequences,
drop the bytes of any ill-formed or truncated sequence and continue. -/
def utf8DecodeIgnore : List Nat → List Char
  | [] => []
  | b0 :: bs =>
    if b0 < 0x80 then Char.ofNat b0 :: utf8DecodeIgnore bs
    else if b0 < 0xC2 then utf8DecodeIgnore bs
    else if b0 < 0xE0 then
      match bs with
      | [] => []
      | b1 :: bs1 =>
        if isCont b1 then
          Char.ofNat ((b0 - 0xC0) * 64 + (b1 - 0x80)) :: utf8DecodeIgnore bs1
        else utf8DecodeIgnore (b1 :: bs1)
    else if b0 < 0xF0 then
      match bs with
      | [] => []
      | b1 :: bs1 =>
        if validSecondOf3 b0 b1 then
          match bs1 with
          | [] => []
          | b2 :: bs2 =>
            if isCont b2 then
              Char.ofNat ((b0 - 0xE0) * 4096 + (b1 - 0x80) * 64 + (b2 - 0x80)) ::
                utf8DecodeIgnore bs2
            else utf8DecodeIgnore (b2 :: bs2)
        else utf8DecodeIgnore (b1 :: bs1)
    else if b0 < 0xF5 then
      match bs with
      | [] => []
      | b1 :: bs1 =>
        if validSecondOf4 b0 b1 then
          match bs1 with
          | [] => []
          | b2 :: bs2 =>
            if isCont b2 then
              match bs2 with
              | [] => []
              | b3 :: bs3 =>
                if isCont b3 then
                  Char.ofNat ((b0 - 0xF0) * 262144 + (b1 - 0x80) * 4096 +
                      (b2 - 0x80) * 64 + (b3 - 0x80)) :: utf8DecodeIgnore bs3
                else utf8DecodeIgnore (b3 :: bs3)
            else utf8DecodeIgnore (b2 :: bs2)
        else utf8DecodeIgnore (b1 :: bs1)
    else utf8DecodeIgnore bs
termination_by l => l.length
decreasing_by all_goals simp_wf <;> omega

/-- The truncation both `hash_password` and `verify_password` apply:
`password.encode('utf-8')[:72].decode('utf-8', errors='ignore')`. -/
def truncatePassword (password : List Char) : List Char :=
  utf8DecodeIgnore ((utf8Encode password).take BCRYPT_MAX_PASSWORD_LENGTH)

/-- `hash_password` (security.py lines 22-27); `bcHash` is
`pwd_context.hash`. -/
def hash_password (bcHash : List Char → String) (password : List Char) : String :=
  bcHash (truncatePassword password)

/-- `verify_password` (security.py lines 30-35); `bcVerify` is
`pwd_context.verify`. -/
def verify_password (bcVerify : List Char → String → Bool)
    (plain_password : List Char) (hashed_password : String) : Bool :=
  bcVerify (truncatePassword plain_password) hashed_password

/-! ### Theorems -/

/-- C3: the spec claims `get_client` falls back transparently to a standalone
connection when cluster negotiation fails at first construction.  In the code
this fallback is unreachable: the `try` block first reads
`settings.REDIS_CLUSTER_ENABLED`, a field the `Settings` class never
declares, so the first construction raises `AttributeError`, which the
`except RedisClusterException` clause does not catch; `get_client` propagates
the failure for every configuration and never falls back. -/
theorem get_client_always_raises_attribute_error
    (flag : Bool) (clusterCtor standaloneCtor : Except PyExc RedisHandle) :
    get_client flag clusterCtor standaloneCtor = .error .attributeError := by
  have h : ¬ ("REDIS_CLUSTER_ENABLED" ∈ settingsFields) := by decide
  simp [get_client, getattrBool, h]

/-- C2: the effective ttl of a refresh token follows the precedence
explicit `expires_delta` over `remember_me` (30-day tier) over the default
tier — but the default tier in `Settings` is
`REFRESH_TOKEN_EXPIRES_MINUTES = 24 * 60`, i.e. one day, not the 7 days the
spec (and the comment inside `create_refresh_token`) promise. -/
theorem refresh_ttl_precedence_default_is_one_day
    (sub jti : String) (uid : Int) (now d : Int) (hd : d ≠ 0) :
    (create_refresh_token sub uid (some d) true jti now).payload.exp = some (now + d)
    ∧ (create_refresh_token sub uid (some d) false jti now).payload.exp = some (now + d)
    ∧ (create_refresh_token sub uid none true jti now).payload.exp
        = some (now + 30 * 24 * 60 * 60)
    ∧ (create_refresh_token sub uid none false jti now).payload.exp
        = some (now + 24 * 60 * 60)
    ∧ (24 * 60 * 60 : Int) ≠ 7 * 24 * 60 * 60 := by
  refine ⟨?_, ?_, ?_, ?_, by decide⟩ <;>
    simp [create_refresh_token, REMEMBER_ME_REFRESH_TOKEN_EXPIRES_MINUTES,
      REFRESH_TOKEN_EXPIRES_MINUTES, hd]

/-- Witness for C2 at `d = 60`, `now = 0`. -/
theorem refresh_ttl_precedence_default_is_one_day_witness :
    (create_refresh_token "u@e" 1 (some 60) true "j" 0).payload.exp = some (0 + 60)
    ∧ (create_refresh_token "u@e" 1 (some 60) false "j" 0).payload.exp = some (0 + 60)
    ∧ (create_refresh_token "u@e" 1 none true "j" 0).payload.exp
        = some (0 + 30 * 24 * 60 * 60)
    ∧ (create_refresh_token "u@e" 1 none false "j" 0).payload.exp
        = some (0 + 24 * 60 * 60)
    ∧ (24 * 60 * 60 : Int) ≠ 7 * 24 * 60 * 60 :=
  refresh_ttl_precedence_default_is_one_day "u@e" "j" 1 0 60 (by decide)

/-- C10: a signature- and expiry-valid token whose payload has no `jti`
claim (or an empty-string one) is returned by `decode_token` without the
revocation store ever being consulted: the payload is returned, the store
state is untouched, and the outcome is independent of the store's contents
and reachability, so such a token can never be rejected as revoked. -/
theorem decode_token_falsy_jti_never_revoked
    (st1 st2 : Store) (now : Int) (t : Token) (p : Payload)
    (hdec : jwtDecode true now t = some p)
    (hjti : p.jti = none ∨ p.jti = some "") :
    decode_token st1 now t = (some p, st1)
    ∧ (decode_token st1 now t).1 = (decode_token st2 now t).1 := by
  rcases hjti with h | h <;> simp [decode_token, hdec, h]

/-- Witness for C10: a revoked-looking store entry cannot reject a token
with no `jti` claim. -/
theorem decode_token_falsy_jti_never_revoked_witness :
    decode_token { reachable := true, entries := [⟨"revoked_token:", 5, "1"⟩] } 0
        { payload := { sub := some "a", exp := some 10 }, sigValid := true }
      = (some { sub := some "a", exp := some 10 },
         { reachable := true, entries := [⟨"revoked_token:", 5, "1"⟩] })
    ∧ (decode_token { reachable := true, entries := [⟨"revoked_token:", 5, "1"⟩] } 0
        { payload := { sub := some "a", exp := some 10 }, sigValid := true }).1
      = (decode_token { reachable := false, entries := [] } 0
        { payload := { sub := some "a", exp := some 10 }, sigValid := true }).1 :=
  decode_token_falsy_jti_never_revoked
    { reachable := true, entries := [⟨"revoked_token:", 5, "1"⟩] }
    { reachable := false, entries := [] } 0
    { payload := { sub := some "a", exp := some 10 }, sigValid := true }
    { sub := some "a", exp := some 10 } rfl (Or.inl rfl)

/-- C5: for any bcrypt backend satisfying its round-trip contract, a
password of UTF-8 byte length at most 72 verifies against its own hash, and
any two passwords whose UTF-8 encodings agree on the first 72 bytes verify
against each other's hashes (the truncation in `hash_password` and
`verify_password` is identical). -/
theorem password_truncation_symmetry
    (bcHash : List Char → String) (bcVerify : List Char → String → Bool)
    (hbc : ∀ s, bcVerify s (bcHash s) = true) (p q : List Char) :
    ((utf8Encode p).length ≤ 72 →
      verify_password bcVerify p (hash_password bcHash p) = true)
    ∧ ((utf8Encode p).take 72 = (utf8Encode q).take 72 →
      verify_password bcVerify q (hash_password bcHash p) = true) := by
  constructor
  · intro _
    exact hbc _
  · intro hagree
    unfold verify_password hash_password truncatePassword BCRYPT_MAX_PASSWORD_LENGTH
    rw [← hagree]
    exact hbc _

/-- Witness for C5: a short password, and a 73-character pair agreeing on
the first 72 bytes but differing at byte 73. -/
theorem password_truncation_symmetry_witness :
    verify_password (fun s h => String.mk s == h) ['a', 'b', 'c']
        (hash_password (fun s => String.mk s) ['a', 'b', 'c']) = true
    ∧ verify_password (fun s h => String.mk s == h)
        (List.replicate 72 'a' ++ ['y'])
        (hash_password (fun s => String.mk s) (List.replicate 72 'a' ++ ['x'])) = true := by
  have hbc : ∀ s : List Char, (String.mk s == String.mk s) = true := fun s => by simp
  exact ⟨(password_truncation_symmetry (fun s => String.mk s) (fun s h => String.mk s == h)
            hbc ['a', 'b', 'c'] ['a', 'b', 'c']).1 (by decide),
         (password_truncation_symmetry (fun s => String.mk s) (fun s h => String.mk s == h)
            hbc (List.replicate 72 'a' ++ ['x']) (List.replicate 72 'a' ++ ['y'])).2
           (by decide)⟩

/-- C1: when the store is unreachable the failure policy is asymmetric:
`is_token_revoked` fails closed (`true`), `revoke_token` fails open
(`false`), `cache_get` returns `none`, `cache_set` and `cache_delete` return
`false`; consequently authenticating a valid, unexpired, unrevoked access
token fails with 401 while the store is down. -/
theorem store_unreachable_failure_policy
    (st : Store) (hdown : st.reachable = false)
    (jti k v : String) (ttl secs now : Int)
    (t : Token) (j : String)
    (hsig : t.sigValid = true)
    (hjti : t.payload.jti = some j) (hj : j ≠ "")
    (hexp : ∀ e, t.payload.exp = some e → ¬ e < now)
    (_htype : t.payload.type = some "access")
    (_hsub : ∃ s, t.payload.sub = some s)
    (_huid : ∃ u, t.payload.user_id = some u) :
    (RedisClient.is_token_revoked st jti).1 = true
    ∧ (RedisClient.revoke_token st jti ttl).1 = false
    ∧ (RedisClient.cache_get st k).1 = none
    ∧ (RedisClient.cache_set st k v secs).1 = false
    ∧ (RedisClient.cache_delete st k).1 = false
    ∧ (get_current_user st now (some t)).1 = .error .unauthorized := by
  have hrev : RedisClient.is_token_revoked st j = (true, st) := by
    simp [RedisClient.is_token_revoked, Store.existsCount, hdown]
  have h1 : jwtDecode true now t = some t.payload := by
    unfold jwtDecode
    rw [hsig]
    cases hx : t.payload.exp with
    | none => simp
    | some e => simp [hexp e hx]
  have hdec : decode_token st now t = (none, st) := by
    unfold decode_token
    simp [h1, hjti, hj, hrev]
  refine ⟨?_, ?_, ?_, ?_, ?_, ?_⟩
  · simp [RedisClient.is_token_revoked, Store.existsCount, hdown]
  · simp [RedisClient.revoke_token, Store.setex, hdown]
  · simp [RedisClient.cache_get, Store.getVal, hdown]
  · simp [RedisClient.cache_set, Store.setex, hdown]
  · simp [RedisClient.cache_delete, Store.delKey, hdown]
  · simp [get_current_user, hdec]

/-- Witness for C1: a concrete unreachable store and a concrete valid,
unexpired, unrevoked access token. -/
theorem store_unreachable_failure_policy_witness :
    (RedisClient.is_token_revoked { reachable := false, entries := [] } "jq").1 = true
    ∧ (RedisClient.revoke_token { reachable := false, entries := [] } "jq" 30).1 = false
    ∧ (RedisClient.cache_get { reachable := false, entries := [] } "k").1 = none
    ∧ (RedisClient.cache_set { reachable := false, entries := [] } "k" "v" 60).1 = false
    ∧ (RedisClient.cache_delete { reachable := false, entries := [] } "k").1 = false
    ∧ (get_current_user { reachable := false, entries := [] } 0
        (some { payload := { sub := some "a@b", user_id := some 1, jti := some "jt",
                             type := some "access", exp := some 100 },
                sigValid := true })).1 = .error .unauthorized :=
  store_unreachable_failure_policy { reachable := false, entries := [] } rfl
    "jq" "k" "v" 30 60 0
    { payload := { sub := some "a@b", user_id := some 1, jti := some "jt",
                   type := some "access", exp := some 100 }, sigValid := true }
    "jt" rfl rfl (by decide)
    (by intro e he; injection he with h; omega)
    rfl ⟨"a@b", rfl⟩ ⟨1, rfl⟩

/-- C6: when a token carries truthy `jti` and `exp` claims, `revoke_token`
writes a revocation entry only when the remaining validity window
`exp - now` is strictly positive, the entry's lifetime is exactly that
window (so it expires at instant `now + (exp - now) = exp`, never later),
and when the window is non-positive nothing is written and the call returns
`false`. -/
theorem revoke_ttl_matches_remaining_window
    (st : Store) (now e : Int) (t : Token) (j : String)
    (hsig : t.sigValid = true)
    (hjti : t.payload.jti = some j) (hj : j ≠ "")
    (hexp : t.payload.exp = some e) (he : e ≠ 0) :
    (e - now ≤ 0 → revoke_token st now t = (false, st))
    ∧ (0 < e - now → st.reachable = true →
        revoke_token st now t
          = (true, { st with entries :=
              ⟨"revoked_token:" ++ j, e - now, "1"⟩ ::
                st.entries.filter (fun x => x.key != "revoked_token:" ++ j) })
          ∧ now + (e - now) = e) := by
  have h0 : jwtDecode false now t = some t.payload := by
    simp [jwtDecode, hsig]
  constructor
  · intro hle
    have hno : ¬ (e - now > 0) := by omega
    unfold revoke_token
    simp [h0, hjti, hexp, hj, he, hno]
  · intro hpos hreach
    constructor
    · have hyes : e - now > 0 := hpos
      unfold revoke_token
      simp [h0, hjti, hexp, hj, he, hyes, RedisClient.revoke_token, Store.setex, hreach]
    · omega

/-- Witness for C6: one already-expired token (window `≤ 0`) and one token
with 50 seconds left. -/
theorem revoke_ttl_matches_remaining_window_witness :
    (revoke_token { reachable := true, entries := [] } 100
        { payload := { jti := some "j", exp := some 60 }, sigValid := true }
      = (false, { reachable := true, entries := [] }))
    ∧ (revoke_token { reachable := true, entries := [] } 10
        { payload := { jti := some "j", exp := some 60 }, sigValid := true }
      = (true, { reachable := true,
                 entries := [⟨"revoked_token:" ++ "j", 60 - 10, "1"⟩] })
      ∧ (10 : Int) + (60 - 10) = 60) :=
  ⟨(revoke_ttl_matches_remaining_window { reachable := true, entries := [] } 100 60
      { payload := { jti := some "j", exp := some 60 }, sigValid := true } "j"
      rfl rfl (by decide) rfl (by decide)).1 (by decide),
   (revoke_ttl_matches_remaining_window { reachable := true, entries := [] } 10 60
      { payload := { jti := some "j", exp := some 60 }, sigValid := true } "j"
      rfl rfl (by decide) rfl (by decide)).2 (by decide) rfl⟩

/-- C7: tokens of one type are never accepted where the other is required:
a decodable token whose `type` claim is not `"access"` makes
`get_current_user` answer 401, and one whose `type` claim is not
`"refresh"` makes the refresh route answer 401; neither path returns claims
or mints tokens. -/
theorem token_type_confusion_rejected
    (st : Store) (now : Int) (t : Token) (p : Payload) (jtiA jtiR : String)
    (hdec : (decode_token st now t).1 = some p) :
    (p.type ≠ some "access" →
      (get_current_user st now (some t)).1 = .error .unauthorized)
    ∧ (p.type ≠ some "refresh" →
      (refresh_token_route st now (some t) jtiA jtiR).1 = .error .unauthorized) := by
  rcases hq : decode_token st now t with ⟨r1, st1⟩
  rw [hq] at hdec
  simp only at hdec
  subst hdec
  constructor
  · intro hne
    unfold get_current_user
    simp [hq, hne]
  · intro hne
    unfold refresh_token_route
    simp [hq, hne]

/-- Witness for C7: a decodable token whose `type` claim is the string
`"weird"`, which is neither `"access"` nor `"refresh"`. -/
theorem token_type_confusion_rejected_witness :
    (get_current_user { reachable := true, entries := [] } 0
        (some { payload := { sub := some "a", user_id := some 1, jti := some "j",
                             type := some "weird", exp := some 10 },
                sigValid := true })).1 = .error .unauthorized
    ∧ (refresh_token_route { reachable := true, entries := [] } 0
        (some { payload := { sub := some "a", user_id := some 1, jti := some "j",
                             type := some "weird", exp := some 10 },
                sigValid := true }) "ja" "jr").1 = .error .unauthorized :=
  ⟨(token_type_confusion_rejected { reachable := true, entries := [] } 0
      { payload := { sub := some "a", user_id := some 1, jti := some "j",
                     type := some "weird", exp := some 10 }, sigValid := true }
      { sub := some "a", user_id := some 1, jti := some "j",
        type := some "weird", exp := some 10 } "ja" "jr" rfl).1 (by decide),
   (token_type_confusion_rejected { reachable := true, entries := [] } 0
      { payload := { sub := some "a", user_id := some 1, jti := some "j",
                     type := some "weird", exp := some 10 }, sigValid := true }
      { sub := some "a", user_id := some 1, jti := some "j",
        type := some "weird", exp := some 10 } "ja" "jr" rfl).2 (by decide)⟩

/-- C8: `login` resolves the identifier email-first then username; when the
resolution finds no user, or the password fails verification, it answers the
single undifferentiated 401 and issues no tokens; when the password verifies
but the account is disabled it answers the distinct 403 and issues no
tokens; and when the email lookup succeeds the outcome does not depend on
the username lookup at all. -/
theorem login_identifier_resolution_and_errors
    (byEmail byUsername : String → Option UserRec) (verify : String → String → Bool)
    (cred : LoginRequest) (jtiA jtiR : String) (now : Int) :
    ((match byEmail cred.username_or_email with
      | some w => some w
      | none => byUsername cred.username_or_email) = none →
      login byEmail byUsername verify cred jtiA jtiR now = .error .unauthorized)
    ∧ (∀ u, (match byEmail cred.username_or_email with
      | some w => some w
      | none => byUsername cred.username_or_email) = some u →
      verify cred.password u.hashed_password = false →
      login byEmail byUsername verify cred jtiA jtiR now = .error .unauthorized)
    ∧ (∀ u, (match byEmail cred.username_or_email with
      | some w => some w
      | none => byUsername cred.username_or_email) = some u →
      verify cred.password u.hashed_password = true →
      u.disabled = true →
      login byEmail byUsername verify cred jtiA jtiR now = .error .forbidden)
    ∧ (∀ u (byUsername2 : String → Option UserRec),
      byEmail cred.username_or_email = some u →
      login byEmail byUsername verify cred jtiA jtiR now
        = login byEmail byUsername2 verify cred jtiA jtiR now) := by
  refine ⟨?_, ?_, ?_, ?_⟩
  · intro hnone
    cases hE : byEmail cred.username_or_email with
    | some w => rw [hE] at hnone; exact absurd hnone (by simp)
    | none =>
      rw [hE] at hnone
      simp only at hnone
      unfold login
      simp [hE, hnone]
  · intro u hres hv
    cases hE : byEmail cred.username_or_email with
    | some w =>
      rw [hE] at hres
      simp only [Option.some.injEq] at hres
      subst hres
      unfold login
      simp [hE, hv]
    | none =>
      rw [hE] at hres
      simp only at hres
      unfold login
      simp [hE, hres, hv]
  · intro u hres hv hd
    cases hE : byEmail cred.username_or_email with
    | some w =>
      rw [hE] at hres
      simp only [Option.some.injEq] at hres
      subst hres
      unfold login
      simp [hE, hv, hd]
    | none =>
      rw [hE] at hres
      simp only at hres
      unfold login
      simp [hE, hres, hv, hd]
  · intro u byUsername2 hE
    unfold login
    simp [hE]

/-- Witness for C8: concrete user stores exercising the no-user, bad-password,
disabled-account, and email-precedence branches. -/
theorem login_identifier_resolution_and_errors_witness :
    login (fun _ => none) (fun _ => none) (fun _ _ => true)
        ⟨"x", "p", false⟩ "ja" "jr" 0 = .error .unauthorized
    ∧ login (fun _ => some ⟨1, "e@x", "un", "H", false⟩) (fun _ => none)
        (fun _ _ => false) ⟨"x", "p", false⟩ "ja" "jr" 0 = .error .unauthorized
    ∧ login (fun _ => some ⟨1, "e@x", "un", "H", true⟩) (fun _ => none)
        (fun _ _ => true) ⟨"x", "p", false⟩ "ja" "jr" 0 = .error .forbidden
    ∧ login (fun _ => some ⟨1, "e@x", "un", "H", false⟩) (fun _ => none)
        (fun _ _ => true) ⟨"x", "p", false⟩ "ja" "jr" 0
      = login (fun _ => some ⟨1, "e@x", "un", "H", false⟩)
          (fun _ => some ⟨2, "other", "o", "G", true⟩)
          (fun _ _ => true) ⟨"x", "p", false⟩ "ja" "jr" 0 :=
  ⟨(login_identifier_resolution_and_errors (fun _ => none) (fun _ => none)
      (fun _ _ => true) ⟨"x", "p", false⟩ "ja" "jr" 0).1 rfl,
   (login_identifier_resolution_and_errors (fun _ => some ⟨1, "e@x", "un", "H", false⟩)
      (fun _ => none) (fun _ _ => false) ⟨"x", "p", false⟩ "ja" "jr" 0).2.1
      ⟨1, "e@x", "un", "H", false⟩ rfl rfl,
   (login_identifier_resolution_and_errors (fun _ => some ⟨1, "e@x", "un", "H", true⟩)
      (fun _ => none) (fun _ _ => true) ⟨"x", "p", false⟩ "ja" "jr" 0).2.2.1
      ⟨1, "e@x", "un", "H", true⟩ rfl rfl rfl,
   (login_identifier_resolution_and_errors (fun _ => some ⟨1, "e@x", "un", "H", false⟩)
      (fun _ => none) (fun _ _ => true) ⟨"x", "p", false⟩ "ja" "jr" 0).2.2.2
      ⟨1, "e@x", "un", "H", false⟩ (fun _ => some ⟨2, "other", "o", "G", true⟩) rfl⟩

/-- C9: the `remember_me` preference is sticky across refresh: a decodable
refresh token whose payload carries `remember_me = true` makes the refresh
route mint a new refresh token whose payload still carries
`remember_me = true` and whose ttl is the extended 30-day tier (and which
decodes back to that payload); a refresh token without the claim defaults to
`remember_me = false` in the minted token. -/
theorem remember_me_sticky_across_refresh
    (st : Store) (now : Int) (t : Token) (p : Payload)
    (em : String) (uid : Int) (jtiA jtiR : String)
    (hdec : (decode_token st now t).1 = some p)
    (htype : p.type = some "refresh")
    (hsub : p.sub = some em) (huid : p.user_id = some uid) :
    (p.remember_me = some true →
      (refresh_token_route st now (some t) jtiA jtiR).1
        = .ok ⟨create_access_token em uid none jtiA now,
               create_refresh_token em uid none true jtiR now⟩
      ∧ (create_refresh_token em uid none true jtiR now).payload.remember_me = some true
      ∧ (create_refresh_token em uid none true jtiR now).payload.exp
          = some (now + 60 * REMEMBER_ME_REFRESH_TOKEN_EXPIRES_MINUTES)
      ∧ jwtDecode true now (create_refresh_token em uid none true jtiR now)
          = some (create_refresh_token em uid none true jtiR now).payload)
    ∧ (p.remember_me = none →
      (refresh_token_route st now (some t) jtiA jtiR).1
        = .ok ⟨create_access_token em uid none jtiA now,
               create_refresh_token em uid none false jtiR now⟩
      ∧ (create_refresh_token em uid none false jtiR now).payload.remember_me = some false) := by
  rcases hq : decode_token st now t with ⟨r1, st1⟩
  rw [hq] at hdec
  simp only at hdec
  subst hdec
  constructor
  · intro hrm
    refine ⟨?_, ?_, ?_, ?_⟩
    · unfold refresh_token_route
      simp [hq, htype, hsub, huid, hrm]
    · simp [create_refresh_token]
    · simp [create_refresh_token]
    · have hno : ¬ (now + 60 * REMEMBER_ME_REFRESH_TOKEN_EXPIRES_MINUTES < now) := by
        unfold REMEMBER_ME_REFRESH_TOKEN_EXPIRES_MINUTES
        omega
      simp [jwtDecode, create_refresh_token, hno]
  · intro hrm
    constructor
    · unfold refresh_token_route
      simp [hq, htype, hsub, huid, hrm]
    · simp [create_refresh_token]

/-- Witness for C9: a refresh token carrying `remember_me = true` and one
with the claim absent. -/
theorem remember_me_sticky_across_refresh_witness :
    ((refresh_token_route { reachable := true, entries := [] } 0
        (some { payload := { sub := some "a@b", user_id := some 7, jti := some "j1",
                             type := some "refresh", exp := some 99,
                             remember_me := some true }, sigValid := true })
        "na" "nr").1
      = .ok ⟨create_access_token "a@b" 7 none "na" 0,
             create_refresh_token "a@b" 7 none true "nr" 0⟩
      ∧ (create_refresh_token "a@b" 7 none true "nr" 0).payload.remember_me = some true
      ∧ (create_refresh_token "a@b" 7 none true "nr" 0).payload.exp
          = some (0 + 60 * REMEMBER_ME_REFRESH_TOKEN_EXPIRES_MINUTES)
      ∧ jwtDecode true 0 (create_refresh_token "a@b" 7 none true "nr" 0)
          = some (create_refresh_token "a@b" 7 none true "nr" 0).payload)
    ∧ ((refresh_token_route { reachable := true, entries := [] } 0
        (some { payload := { sub := some "a@b", user_id := some 7, jti := some "j2",
                             type := some "refresh", exp := some 99 },
                sigValid := true })
        "na" "nr").1
      = .ok ⟨create_access_token "a@b" 7 none "na" 0,
             create_refresh_token "a@b" 7 none false "nr" 0⟩
      ∧ (create_refresh_token "a@b" 7 none false "nr" 0).payload.remember_me = some false) :=
  ⟨(remember_me_sticky_across_refresh { reachable := true, entries := [] } 0
      { payload := { sub := some "a@b", user_id := some 7, jti := some "j1",
                     type := some "refresh", exp := some 99,
                     remember_me := some true }, sigValid := true }
      { sub := some "a@b", user_id := some 7, jti := some "j1",
        type := some "refresh", exp := some 99, remember_me := some true }
      "a@b" 7 "na" "nr" rfl rfl rfl rfl).1 rfl,
   (remember_me_sticky_across_refresh { reachable := true, entries := [] } 0
      { payload := { sub := some "a@b", user_id := some 7, jti := some "j2",
                     type := some "refresh", exp := some 99 }, sigValid := true }
      { sub := some "a@b", user_id := some 7, jti := some "j2",
        type := some "refresh", exp := some 99 }
      "a@b" 7 "na" "nr" rfl rfl rfl rfl).2 rfl⟩

/-- C4 counterexample: a signature-valid access token that expired at
instant 50, presented to `logout` at instant 100 against a healthy, empty
store, is rejected with 401 by the route's `get_current_user` dependency and
nothing is written to the store — it is not revoked, contradicting the claim
that an expired token can still be revoked at logout. -/
theorem logout_expired_token_not_revoked_cex :
    logout { reachable := true, entries := [] } 100
        (some { payload := { sub := some "a@b", user_id := some 1, jti := some "jx",
                             type := some "access", exp := some 50 },
                sigValid := true })
      = (.error .unauthorized, { reachable := true, entries := [] }) := rfl

/-- C4 amended: the decode step used by `revoke_token` validates only the
signature and ignores expiry; but the `logout` route first authenticates the
same access-token cookie through `get_current_user` (which enforces expiry
and revocation), so only tokens accepted there reach revocation — and for
every request that passes authentication, logout answers success regardless
of whether the revocation write succeeds or fails. -/
theorem logout_amended_best_effort
    (st : Store) (now : Int) (t : Token)
    (hsig : t.sigValid = true)
    (hauth : ∃ td, (get_current_user st now (some t)).1 = .ok td) :
    jwtDecode false now t = some t.payload
    ∧ (logout st now (some t)).1 = .ok "Successfully logged out" := by
  constructor
  · simp [jwtDecode, hsig]
  · obtain ⟨td, hok⟩ := hauth
    unfold logout
    rcases hq : get_current_user st now (some t) with ⟨r1, st1⟩
    rw [hq] at hok
    simp only at hok
    cases r1 with
    | error e => exact absurd hok (by simp)
    | ok td2 => simp [hq]

/-- Witness for C4 amended: a token expiring exactly at the current instant
passes authentication, its revocation window is `0` so the revocation write
returns `false`, and logout still answers success. -/
theorem logout_amended_best_effort_witness :
    jwtDecode false 100
        { payload := { sub := some "a@b", user_id := some 1, jti := some "j",
                       type := some "access", exp := some 100 }, sigValid := true }
      = some { sub := some "a@b", user_id := some 1, jti := some "j",
               type := some "access", exp := some 100 }
    ∧ (logout { reachable := true, entries := [] } 100
        (some { payload := { sub := some "a@b", user_id := some 1, jti := some "j",
                             type := some "access", exp := some 100 },
                sigValid := true })).1 = .ok "Successfully logged out" :=
  logout_amended_best_effort { reachable := true, entries := [] } 100
    { payload := { sub := some "a@b", user_id := some 1, jti := some "j",
                   type := some "access", exp := some 100 }, sigValid := true }
    rfl ⟨⟨1, "a@b"⟩, rfl⟩

end Api
